import Mathlib

/-!
Verification development for the bsc-indexer ingestion/confirmation core.

The Go source is shallowly embedded: uint64 arithmetic is `Nat` with explicit
`% 2 ^ 64` where wraparound matters, fallible calls are `Except String`,
channel/goroutine effects are explicit state, and each function keeps its
source name where Lean allows it.
-/

namespace Portto

/-- Modulus of Go's `uint64`. -/
def UINT64_MOD : Nat := 2 ^ 64

/-- `ConfirmationNeeded = 10` from the constant block of indexer.go. -/
def ConfirmationNeeded : Nat := 10

/-- `SecondPerBlock = 3` from indexer.go. -/
def SecondPerBlock : Nat := 3

/-- `IndexLimit = 100` from indexer.go: bounds the range indexed when the DB is empty. -/
def IndexLimit : Nat := 100

/-- `MaxWorker = 3` from indexer.go. -/
def MaxWorker : Nat := 3

/-- The jobs channel is created with `make(chan uint64, 1)` in `NewIndexer`. -/
def JobsChannelCapacity : Nat := 1

/-- The `Block` model (models.go): Number, Hash, Time, ParentHash, Transactions, Confirmed. -/
structure Block where
  number : Nat
  hash : String
  time : Nat
  parentHash : String
  transactions : List String
  confirmed : Bool
deriving Repr, DecidableEq

/-- A zero-value `Block`, used only as the default of out-of-range list reads. -/
def dummyBlock : Block :=
  { number := 0, hash := "", time := 0, parentHash := "", transactions := [], confirmed := false }

/-- One receipt log entry of the `Transaction` model (models.go). -/
structure TxLog where
  index : Nat
  data : String
deriving Repr, DecidableEq

/-- The `Transaction` model (models.go). -/
structure Transaction where
  hash : String
  fromAddr : String
  toAddr : String
  nonce : Nat
  data : String
  value : Nat
  logs : List TxLog
  blockHash : String
deriving Repr, DecidableEq

/-! ## Supervisor: updateLatestNumber and makeRoutineJobs -/

/-- `updateLatestNumber` (indexer.go): on a failed `GetBlockNumber` call it pushes an
error onto the error channel and returns without touching `currentLatest`; on success
it overwrites `currentLatest`.  Result: (new `currentLatest`, reported error). -/
def updateLatestNumber (fetchRes : Except String Nat) (currentLatest : Nat) :
    Nat × Option String :=
  match fetchRes with
  | .error e => (currentLatest, some ("failed to get latest number on chain, " ++ e))
  | .ok latest => (latest, none)

/-- Ascending list of block numbers `lo, lo+1, ..., hi` (empty when `lo > hi`),
the iteration order of the `for i := from; i <= idx.currentLatest; i++` loop. -/
def rangeAsc (lo hi : Nat) : List Nat := List.range' lo (hi + 1 - lo)

/-- The `from` computed by `makeRoutineJobs`: when the repo is empty (`repoLatest == 0`)
it is `idx.currentLatest - IndexLimit` in wrapping uint64 arithmetic, else
`repoLatest + 1` (also uint64). -/
def routineFrom (repoLatest currentLatest : Nat) : Nat :=
  if repoLatest = 0 then (currentLatest + UINT64_MOD - IndexLimit) % UINT64_MOD
  else (repoLatest + 1) % UINT64_MOD

/-- `makeRoutineJobs` (indexer.go): a no-op when `len(idx.jobs) > 0`; on a failed
`GetLatestNumber` it reports the error and schedules nothing; otherwise it calls
`addJob i` for every `i` in `[from, currentLatest]` in ascending order.
Result: (numbers passed to `addJob`, in call order; reported error). -/
def makeRoutineJobs (queueLen : Nat) (repoLatestRes : Except String Nat)
    (currentLatest : Nat) : List Nat × Option String :=
  if 0 < queueLen then ([], none)
  else
    match repoLatestRes with
    | .error e => ([], some ("failed to get latest number in DB, " ++ e))
    | .ok repoLatest => (rangeAsc (routineFrom repoLatest currentLatest) currentLatest, none)

/-- The claimed bootstrap policy, written from the spec's words for comparison with
`routineFrom`: `from = max(storeLatest+1, chainHeight - INDEX_LIMIT)` when the store
is empty, else `storeLatest + 1` (the subtraction read over the integers). -/
def claimFrom (storeLatest chainHeight : Nat) : Int :=
  if storeLatest = 0 then
    max ((storeLatest : Int) + 1) ((chainHeight : Int) - (IndexLimit : Int))
  else (storeLatest : Int) + 1

/-- The range the claim says a discovery pass enqueues: `[claimFrom, chainHeight]`. -/
def claimJobs (storeLatest chainHeight : Nat) : List Nat :=
  rangeAsc (claimFrom storeLatest chainHeight).toNat chainHeight

/-! ## The jobs channel and addJob -/

/-- State of the jobs channel together with its producers: `buffer` is the channel's
buffered content (capacity `JobsChannelCapacity`), `pending` are the spawned sender
goroutines that have not yet completed their send, in spawn order. -/
structure JobQueue where
  buffer : List Nat
  pending : List Nat
deriving Repr, DecidableEq

/-- `addJob` (indexer.go): `go func() { idx.jobs <- n }()` — it spawns a new sender
goroutine and returns immediately; the caller never blocks and the buffer is untouched. -/
def addJob (n : Nat) (q : JobQueue) : JobQueue :=
  { q with pending := q.pending ++ [n] }

/-- The enqueue loop of `makeRoutineJobs`: one `addJob` per scheduled number. -/
def scheduleJobs (js : List Nat) (q : JobQueue) : JobQueue :=
  js.foldl (fun q n => addJob n q) q

/-- One runtime step in which the oldest pending sender completes its send, possible
only while the channel buffer has room. -/
def deliverOne (q : JobQueue) : JobQueue :=
  match q.pending with
  | [] => q
  | n :: rest =>
      if q.buffer.length < JobsChannelCapacity then
        { buffer := q.buffer ++ [n], pending := rest }
      else q

/-- Number of concurrently running sender goroutines. -/
def concurrentSenders (q : JobQueue) : Nat := q.pending.length

/-! ## Fetch worker -/

/-- Wire-level transaction inside a fetched block; only its hash is consumed. -/
structure RawTransaction where
  hashStr : String
deriving Repr, DecidableEq

/-- Wire-level block as returned by `client.GetBlockByNumber`. -/
structure RawBlock where
  number : Nat
  hash : String
  time : Nat
  parentHash : String
  transactions : List RawTransaction
deriving Repr, DecidableEq

/-- The `blockModel` built by `fetchAndStoreBlock`: number, hash, time, parent hash and
the ordered transaction hashes; `Confirmed` is left at its zero value `false`. -/
def toBlockModel (raw : RawBlock) : Block :=
  { number := raw.number
    hash := raw.hash
    time := raw.time
    parentHash := raw.parentHash
    transactions := raw.transactions.map (fun t => t.hashStr)
    confirmed := false }

/-- `fetchAndStoreBlock` (indexer.go): a failed `GetBlockByNumber` returns an error.
On success the block model is built and `CreateBlock` is called — but its result is
assigned to the blank identifier (`_ = idx.repo.CreateBlock(blockModel)`), and the
`if err != nil` that follows re-tests the fetch error, already known nil, so the
function returns nil whatever `CreateBlock` did.
Result: (returned error, block model passed to `CreateBlock`). -/
def fetchAndStoreBlock (fetchRes : Except String RawBlock)
    (createBlock : Block → Except String Unit) : Except String Unit × Option Block :=
  match fetchRes with
  | .error e => (.error ("[FastWorker] failed to get block, " ++ e), none)
  | .ok blockRaw =>
      let blockModel := toBlockModel blockRaw
      let _ := createBlock blockModel
      (.ok (), some blockModel)

/-- `FastWorker` (indexer.go) pushes onto the error channel exactly when
`fetchAndStoreBlock` returns a non-nil error. -/
def fastWorkerReport (r : Except String Unit) : Option String :=
  match r with
  | .error e => some ("[FastWorker] failed to fetch block and store, " ++ e)
  | .ok _ => none

/-! ## Confirmation worker -/

/-- The promotion boundary of `ConfirmWorker`: `to := int(idx.currentLatest -
ConfirmationNeeded)` computed in wrapping uint64 arithmetic and compared back as
`uint64(to)` (the int round-trip preserves the 64-bit pattern). -/
def safeBoundary (currentLatest : Nat) : Nat :=
  (currentLatest + UINT64_MOD - ConfirmationNeeded) % UINT64_MOD

/-- The pair walk of `ConfirmWorker`: for `i` from 0 to `len-2`, stop when
`blocks[i].Number >= uint64(to)` or `blocks[i].Hash != blocks[i+1].ParentHash`,
otherwise append `blocks[i]` to the validated list. -/
def confirmWalk (bd : Nat) : List Block → List Block
  | b0 :: b1 :: rest =>
      if bd ≤ b0.number then []
      else if b0.hash ≠ b1.parentHash then []
      else b0 :: confirmWalk bd (b1 :: rest)
  | _ => []

/-- Length of the validated list produced by `confirmWalk`. -/
def walkLen (bd : Nat) : List Block → Nat
  | b0 :: b1 :: rest =>
      if bd ≤ b0.number then 0
      else if b0.hash ≠ b1.parentHash then 0
      else walkLen bd (b1 :: rest) + 1
  | _ => 0

/-- The stop condition of the walk at index `i` (out-of-range reads see `dummyBlock`). -/
def stopAt (bd : Nat) (blocks : List Block) (i : Nat) : Prop :=
  bd ≤ (blocks.getD i dummyBlock).number ∨
    (blocks.getD i dummyBlock).hash ≠ (blocks.getD (i + 1) dummyBlock).parentHash

/-- The blocks one `ConfirmWorker` pass hands to `repo.ConfirmBlocks`: `none` when
fewer than two unconfirmed blocks exist (the pass `continue`s without calling
`ConfirmBlocks`), otherwise the validated prefix of the walk. -/
def promotedBlocks (currentLatest : Nat) (blocks : List Block) : Option (List Block) :=
  if blocks.length < 2 then none
  else some (confirmWalk (safeBoundary currentLatest) blocks)

/-- Whether a worker keeps looping after a pass or returns. -/
inductive WorkerControl where
  | continueLoop
  | terminate
deriving Repr, DecidableEq

/-- One timer tick of `ConfirmWorker` (indexer.go): a failed `GetUnconfirmedBlocks`
reports and returns; fewer than two blocks continues; a failed `ConfirmBlocks`
reports and returns; success continues.  Result: (control, reported error). -/
def confirmWorkerPass (currentLatest : Nat) (getRes : Except String (List Block))
    (confirmRes : List Block → Except String Unit) : WorkerControl × Option String :=
  match getRes with
  | .error e =>
      (WorkerControl.terminate, some ("failed to get unconfirmed blocks ConfirmWorker, " ++ e))
  | .ok blocks =>
      match promotedBlocks currentLatest blocks with
      | none => (WorkerControl.continueLoop, none)
      | some validated =>
          match confirmRes validated with
          | .error e =>
              (WorkerControl.terminate, some ("[ConfirmWorker] failed to confirm blocks, " ++ e))
          | .ok _ => (WorkerControl.continueLoop, none)

/-! ## GetTransaction and its collaborators -/

/-- Wire-level transaction data from `GetTransactionByHash`. -/
structure ChainTxData where
  fromAddr : String
  toAddr : String
  nonce : Nat
  data : String
  value : Nat
deriving Repr, DecidableEq

/-- One receipt log from the chain; `data` already carries the
`common.BytesToHash(l.Data).String()` rendering. -/
structure ReceiptLog where
  index : Nat
  data : String
deriving Repr, DecidableEq

/-- Wire-level receipt data from `GetTransactionReceipt`. -/
structure ReceiptData where
  logs : List ReceiptLog
  blockHash : String
deriving Repr, DecidableEq

/-- The chain client operations `GetTransaction` consumes. -/
structure ChainClient where
  getTransactionByHash : String → Except String ChainTxData
  getTransactionReceipt : String → Except String ReceiptData

/-- `SQLStore.FindTransaction` (store.go): first stored transaction whose hash matches,
`nil` (here `none`) when the record is not found. -/
def FindTransaction (store : List Transaction) (hash : String) : Option Transaction :=
  store.find? (fun tx => tx.hash == hash)

/-- The `Transaction` assembled by `GetTransaction` from the live chain data. -/
def assembleTransaction (hash : String) (txd : ChainTxData) (rcpt : ReceiptData) :
    Transaction :=
  { hash := hash
    fromAddr := txd.fromAddr
    toAddr := txd.toAddr
    nonce := txd.nonce
    data := txd.data
    value := txd.value
    logs := rcpt.logs.map (fun l => { index := l.index, data := l.data })
    blockHash := rcpt.blockHash }

/-- Outcome of one `GetTransaction` call: its return value, the store afterwards
(`CreateTransaction` appends the new record), and whether a live chain fetch ran. -/
structure GetTxResult where
  result : Except String Transaction
  store : List Transaction
  liveFetch : Bool

/-- `GetTransaction` (indexer.go): a store hit returns the stored record with no chain
traffic; a miss fetches transaction and receipt live, assembles the record, persists it
via `CreateTransaction` and returns it; any failing step returns an error. -/
def GetTransaction (client : ChainClient) (createTx : Transaction → Except String Unit)
    (store : List Transaction) (hash : String) : GetTxResult :=
  match FindTransaction store hash with
  | some tx => { result := .ok tx, store := store, liveFetch := false }
  | none =>
      match client.getTransactionByHash hash with
      | .error e =>
          { result := .error ("failed to get transaction from chain, " ++ e)
            store := store, liveFetch := true }
      | .ok txd =>
          match client.getTransactionReceipt hash with
          | .error e =>
              { result := .error ("failed to get transaction receipt from chain, " ++ e)
                store := store, liveFetch := true }
          | .ok rcpt =>
              let t := assembleTransaction hash txd rcpt
              match createTx t with
              | .error e =>
                  { result := .error ("failed to store transaction to repo, " ++ e)
                    store := store, liveFetch := true }
              | .ok _ => { result := .ok t, store := store ++ [t], liveFetch := true }

/-! ## HTTP /blocks handler -/

/-- Base-10 digit accumulation; `none` as soon as a non-digit appears. -/
def digitsVal? (cs : List Char) : Option Nat :=
  cs.foldl
    (fun acc c =>
      match acc with
      | none => none
      | some n => if c.isDigit then some (n * 10 + (c.toNat - 48)) else none)
    (some 0)

/-- `strconv.Atoi` on the success/failure level: an optional sign followed by one or
more decimal digits parses to its value, anything else is an error (`none`).
(Go's range error cannot change the handler's observable behaviour: any value
rejected for range would also be rejected by the `[1, 10]` bound check.) -/
def atoi? (s : String) : Option Int :=
  match s.data with
  | [] => none
  | c :: rest =>
      if c = '-' then
        match rest with
        | [] => none
        | _ => (digitsVal? rest).map (fun n => -(n : Int))
      else if c = '+' then
        match rest with
        | [] => none
        | _ => (digitsVal? rest).map (fun n => (n : Int))
      else (digitsVal? (c :: rest)).map (fun n => (n : Int))

/-- The three responses `blocksHandler` can produce. -/
inductive BlocksResponse where
  | badRequest
  | internalError (msg : String)
  | ok (blocks : List Block)
deriving Repr, DecidableEq

/-- `blocksHandler` (apiservice.go): the `limit` query parameter defaults to "1" when
absent; a parse failure or a value outside `[1, 10]` yields 400 Bad Request before
`GetNewBlocks` is consulted.  Result: (response, limit passed to `GetNewBlocks`,
`none` when the indexer was never called). -/
def blocksHandler (limitParam : Option String)
    (getNewBlocks : Int → Except String (List Block)) : BlocksResponse × Option Int :=
  let limitRaw := limitParam.getD "1"
  match atoi? limitRaw with
  | none => (BlocksResponse.badRequest, none)
  | some limit =>
      if limit < 1 ∨ 10 < limit then (BlocksResponse.badRequest, none)
      else
        match getNewBlocks limit with
        | .error e => (BlocksResponse.internalError ("error: " ++ e), some limit)
        | .ok bs => (BlocksResponse.ok bs, some limit)

/-! ## Helper lemmas about the confirmation walk -/

/-- The walk's boundary equals `currentLatest - ConfirmationNeeded` whenever the chain
height is a uint64 at least the confirmation depth. -/
theorem safeBoundary_eq (h : Nat) (hge : ConfirmationNeeded ≤ h) (hlt : h < UINT64_MOD) :
    safeBoundary h = h - ConfirmationNeeded := by
  unfold safeBoundary
  have hsplit : h + UINT64_MOD - ConfirmationNeeded = (h - ConfirmationNeeded) + UINT64_MOD := by
    omega
  rw [hsplit, Nat.add_mod_right, Nat.mod_eq_of_lt (by omega)]

/-- The validated list is the prefix of the input of length `walkLen`. -/
theorem confirmWalk_eq_take (bd : Nat) :
    ∀ bs : List Block, confirmWalk bd bs = bs.take (walkLen bd bs)
  | [] => rfl
  | [_] => rfl
  | b0 :: b1 :: rest => by
    by_cases h1 : bd ≤ b0.number
    · simp [confirmWalk, walkLen, h1]
    · by_cases h2 : b0.hash ≠ b1.parentHash
      · simp [confirmWalk, walkLen, h1, h2]
      · simp only [confirmWalk, walkLen, if_neg h1, if_neg h2, List.take_succ_cons]
        exact congrArg (List.cons b0) (confirmWalk_eq_take bd (b1 :: rest))

/-- The walk never reaches the last element of the list. -/
theorem walkLen_le (bd : Nat) :
    ∀ bs : List Block, walkLen bd bs ≤ bs.length - 1
  | [] => by simp [walkLen]
  | [_] => by simp [walkLen]
  | b0 :: b1 :: rest => by
    by_cases h1 : bd ≤ b0.number
    · simp [walkLen, h1]
    · by_cases h2 : b0.hash ≠ b1.parentHash
      · simp [walkLen, h1, h2]
      · have ih := walkLen_le bd (b1 :: rest)
        simp only [walkLen, if_neg h1, if_neg h2, List.length_cons] at ih ⊢
        omega

/-- No index the walk passed satisfies the stop condition. -/
theorem not_stop_before_walkLen (bd : Nat) :
    ∀ (bs : List Block) (j : Nat), j < walkLen bd bs → ¬ stopAt bd bs j
  | [], j => by simp [walkLen]
  | [_], j => by simp [walkLen]
  | b0 :: b1 :: rest, j => by
    by_cases h1 : bd ≤ b0.number
    · simp [walkLen, h1]
    · by_cases h2 : b0.hash ≠ b1.parentHash
      · simp [walkLen, h1, h2]
      · simp only [walkLen, if_neg h1, if_neg h2]
        intro hj
        match j with
        | 0 =>
          simp only [stopAt, List.getD_cons_zero, List.getD_cons_succ]
          push_neg
          exact ⟨Nat.lt_of_not_le h1, not_not.mp h2⟩
        | j' + 1 =>
          have ih := not_stop_before_walkLen bd (b1 :: rest) j' (by omega)
          simpa [stopAt, List.getD_cons_succ] using ih

/-- When the walk halts before the second-to-last index, the stop condition holds at
the halting index. -/
theorem stop_at_walkLen (bd : Nat) :
    ∀ bs : List Block, walkLen bd bs < bs.length - 1 → stopAt bd bs (walkLen bd bs)
  | [] => by simp [walkLen]
  | [_] => by simp [walkLen]
  | b0 :: b1 :: rest => by
    by_cases h1 : bd ≤ b0.number
    · intro _
      simp only [walkLen, if_pos h1]
      exact Or.inl (by simpa [stopAt, List.getD_cons_zero] using h1)
    · by_cases h2 : b0.hash ≠ b1.parentHash
      · intro _
        simp only [walkLen, if_neg h1, if_pos h2]
        exact Or.inr (by simpa [stopAt, List.getD_cons_zero, List.getD_cons_succ] using h2)
      · intro hlt
        simp only [walkLen, if_neg h1, if_neg h2, List.length_cons] at hlt ⊢
        have ih := stop_at_walkLen bd (b1 :: rest) (by simp only [List.length_cons]; omega)
        simpa [stopAt, List.getD_cons_succ] using ih

/-! ## Claim theorems -/

/-- C3: on a successful fetch the block is mapped to its model and handed to
`CreateBlock`; but the code discards the `CreateBlock` error (blank-identifier
assignment followed by a re-test of the already-nil fetch error), so when
`CreateBlock` fails nothing reaches the error channel: at block 7 with a failing
store, `fetchAndStoreBlock` still returns nil and `FastWorker` reports nothing. -/
theorem createBlock_failure_swallowed :
    fetchAndStoreBlock
        (.ok { number := 7, hash := "h7", time := 0, parentHash := "h6", transactions := [] })
        (fun _ => .error "db down") =
      (.ok (),
        some (toBlockModel
          { number := 7, hash := "h7", time := 0, parentHash := "h6", transactions := [] })) ∧
    fastWorkerReport
      (fetchAndStoreBlock
        (.ok { number := 7, hash := "h7", time := 0, parentHash := "h6", transactions := [] })
        (fun _ => .error "db down")).1 = none :=
  ⟨rfl, rfl⟩

/-- C6: a failed height refresh reports the error and leaves `currentLatest` at its
previous value; the field is overwritten only by a successful chain call. -/
theorem updateLatestNumber_frame :
    (∀ e cur, updateLatestNumber (.error e) cur =
        (cur, some ("failed to get latest number on chain, " ++ e))) ∧
    (∀ n cur, updateLatestNumber (.ok n) cur = (n, none)) :=
  ⟨fun _ _ => rfl, fun _ _ => rfl⟩

/-- C7: when persisting the promotions fails, the pass reports the error on the error
channel and the confirmation task returns instead of looping. -/
theorem confirmWorker_persist_failure_terminates (h : Nat) (blocks validated : List Block)
    (confirmRes : List Block → Except String Unit) (e : String)
    (hp : promotedBlocks h blocks = some validated)
    (he : confirmRes validated = .error e) :
    confirmWorkerPass h (.ok blocks) confirmRes =
      (WorkerControl.terminate, some ("[ConfirmWorker] failed to confirm blocks, " ++ e)) := by
  simp [confirmWorkerPass, hp, he]

/-- Witness for C7 at a concrete two-block pass with a failing store. -/
theorem confirmWorker_persist_failure_terminates_witness :
    confirmWorkerPass 21
        (.ok [{ number := 10, hash := "h10", time := 0, parentHash := "p9",
                transactions := [], confirmed := false },
              { number := 11, hash := "h11", time := 0, parentHash := "h10",
                transactions := [], confirmed := false }])
        (fun _ => .error "store gone") =
      (WorkerControl.terminate,
        some ("[ConfirmWorker] failed to confirm blocks, " ++ "store gone")) :=
  confirmWorker_persist_failure_terminates 21
    [{ number := 10, hash := "h10", time := 0, parentHash := "p9",
       transactions := [], confirmed := false },
     { number := 11, hash := "h11", time := 0, parentHash := "h10",
       transactions := [], confirmed := false }]
    [{ number := 10, hash := "h10", time := 0, parentHash := "p9",
       transactions := [], confirmed := false }]
    (fun _ => .error "store gone") "store gone" (by decide) rfl

/-- C2: with fewer than two unconfirmed blocks a pass promotes nothing; otherwise the
pair walk from the lowest number halts at the first index whose block is at or above
`chainHeight - CONFIRMATION_DEPTH` or whose hash differs from its successor's parent
hash, and exactly the prefix before that index is promoted. -/
theorem confirmWorker_promoted_stop_front (h : Nat) (blocks : List Block)
    (hge : ConfirmationNeeded ≤ h) (hlt : h < UINT64_MOD) :
    safeBoundary h = h - ConfirmationNeeded ∧
    (blocks.length < 2 → promotedBlocks h blocks = none) ∧
    (2 ≤ blocks.length →
      ∃ k, promotedBlocks h blocks = some (blocks.take k) ∧
        k ≤ blocks.length - 1 ∧
        (∀ j, j < k → ¬ stopAt (h - ConfirmationNeeded) blocks j) ∧
        (k < blocks.length - 1 → stopAt (h - ConfirmationNeeded) blocks k)) := by
  have hsb : safeBoundary h = h - ConfirmationNeeded := safeBoundary_eq h hge hlt
  refine ⟨hsb, fun hlen => by simp [promotedBlocks, hlen], fun hlen => ?_⟩
  have hnot : ¬ blocks.length < 2 := by omega
  refine ⟨walkLen (safeBoundary h) blocks, ?_, ?_, ?_, ?_⟩
  · simp [promotedBlocks, hnot, confirmWalk_eq_take]
  · exact walkLen_le (safeBoundary h) blocks
  · intro j hj
    rw [← hsb]
    exact not_stop_before_walkLen (safeBoundary h) blocks j hj
  · intro hk
    rw [← hsb]
    exact stop_at_walkLen (safeBoundary h) blocks hk

/-- Witness for C2 at Scenario C: blocks 10, 11, 12 with 12's parent hash mismatching
11's hash and the depth boundary at 11 (chain height 21): the pass promotes a prefix
halting at the first stop index, which here leaves only block 10 promoted. -/
theorem confirmWorker_promoted_stop_front_witness :
    ∃ k, promotedBlocks 21
        [{ number := 10, hash := "h10", time := 0, parentHash := "p9",
           transactions := [], confirmed := false },
         { number := 11, hash := "h11", time := 0, parentHash := "h10",
           transactions := [], confirmed := false },
         { number := 12, hash := "h12", time := 0, parentHash := "h10",
           transactions := [], confirmed := false }] =
        some (([{ number := 10, hash := "h10", time := 0, parentHash := "p9",
                  transactions := [], confirmed := false },
                { number := 11, hash := "h11", time := 0, parentHash := "h10",
                  transactions := [], confirmed := false },
                { number := 12, hash := "h12", time := 0, parentHash := "h10",
                  transactions := [], confirmed := false }] : List Block).take k) ∧
      k ≤ ([{ number := 10, hash := "h10", time := 0, parentHash := "p9",
              transactions := [], confirmed := false },
            { number := 11, hash := "h11", time := 0, parentHash := "h10",
              transactions := [], confirmed := false },
            { number := 12, hash := "h12", time := 0, parentHash := "h10",
              transactions := [], confirmed := false }] : List Block).length - 1 ∧
      (∀ j, j < k → ¬ stopAt (21 - ConfirmationNeeded)
        [{ number := 10, hash := "h10", time := 0, parentHash := "p9",
           transactions := [], confirmed := false },
         { number := 11, hash := "h11", time := 0, parentHash := "h10",
           transactions := [], confirmed := false },
         { number := 12, hash := "h12", time := 0, parentHash := "h10",
           transactions := [], confirmed := false }] j) ∧
      (k < ([{ number := 10, hash := "h10", time := 0, parentHash := "p9",
               transactions := [], confirmed := false },
             { number := 11, hash := "h11", time := 0, parentHash := "h10",
               transactions := [], confirmed := false },
             { number := 12, hash := "h12", time := 0, parentHash := "h10",
               transactions := [], confirmed := false }] : List Block).length - 1 →
        stopAt (21 - ConfirmationNeeded)
          [{ number := 10, hash := "h10", time := 0, parentHash := "p9",
             transactions := [], confirmed := false },
           { number := 11, hash := "h11", time := 0, parentHash := "h10",
             transactions := [], confirmed := false },
           { number := 12, hash := "h12", time := 0, parentHash := "h10",
             transactions := [], confirmed := false }] k) :=
  (confirmWorker_promoted_stop_front 21
    [{ number := 10, hash := "h10", time := 0, parentHash := "p9",
       transactions := [], confirmed := false },
     { number := 11, hash := "h11", time := 0, parentHash := "h10",
       transactions := [], confirmed := false },
     { number := 12, hash := "h12", time := 0, parentHash := "h10",
       transactions := [], confirmed := false }]
    (by decide) (by decide)).2.2 (by decide)

/-- C9: whenever a pass calls `ConfirmBlocks`, the promoted list is a prefix of the
unconfirmed list that stops short of its last element — the loop index runs only to
`len-2` — so the highest-numbered unconfirmed block survives every pass. -/
theorem promoted_excludes_last_unconfirmed (h : Nat) (blocks p : List Block)
    (hp : promotedBlocks h blocks = some p) :
    (∃ k, k ≤ blocks.length - 1 ∧ p = blocks.take k) ∧ p.length < blocks.length := by
  unfold promotedBlocks at hp
  by_cases hlen : blocks.length < 2
  · simp [hlen] at hp
  · simp only [if_neg hlen, Option.some.injEq] at hp
    have hk := walkLen_le (safeBoundary h) blocks
    refine ⟨⟨walkLen (safeBoundary h) blocks, hk, ?_⟩, ?_⟩
    · rw [← hp, confirmWalk_eq_take]
    · rw [← hp, confirmWalk_eq_take, List.length_take]
      omega

/-- Witness for C9 on a concrete three-block pass. -/
theorem promoted_excludes_last_unconfirmed_witness :
    (∃ k, k ≤ ([{ number := 3, hash := "a3", time := 0, parentHash := "a2",
                  transactions := [], confirmed := false },
                { number := 4, hash := "a4", time := 0, parentHash := "a3",
                  transactions := [], confirmed := false },
                { number := 5, hash := "a5", time := 0, parentHash := "a4",
                  transactions := [], confirmed := false }] : List Block).length - 1 ∧
      [{ number := 3, hash := "a3", time := 0, parentHash := "a2",
         transactions := [], confirmed := false },
       { number := 4, hash := "a4", time := 0, parentHash := "a3",
         transactions := [], confirmed := false }] =
        ([{ number := 3, hash := "a3", time := 0, parentHash := "a2",
            transactions := [], confirmed := false },
          { number := 4, hash := "a4", time := 0, parentHash := "a3",
            transactions := [], confirmed := false },
          { number := 5, hash := "a5", time := 0, parentHash := "a4",
            transactions := [], confirmed := false }] : List Block).take k) ∧
    ([{ number := 3, hash := "a3", time := 0, parentHash := "a2",
        transactions := [], confirmed := false },
      { number := 4, hash := "a4", time := 0, parentHash := "a3",
        transactions := [], confirmed := false }] : List Block).length <
      ([{ number := 3, hash := "a3", time := 0, parentHash := "a2",
          transactions := [], confirmed := false },
        { number := 4, hash := "a4", time := 0, parentHash := "a3",
          transactions := [], confirmed := false },
        { number := 5, hash := "a5", time := 0, parentHash := "a4",
          transactions := [], confirmed := false }] : List Block).length :=
  promoted_excludes_last_unconfirmed 100
    [{ number := 3, hash := "a3", time := 0, parentHash := "a2",
       transactions := [], confirmed := false },
     { number := 4, hash := "a4", time := 0, parentHash := "a3",
       transactions := [], confirmed := false },
     { number := 5, hash := "a5", time := 0, parentHash := "a4",
       transactions := [], confirmed := false }]
    [{ number := 3, hash := "a3", time := 0, parentHash := "a2",
       transactions := [], confirmed := false },
     { number := 4, hash := "a4", time := 0, parentHash := "a3",
       transactions := [], confirmed := false }]
    (by decide)

/-- C1 counterexample: with an empty store and chain height 50 the code's `from`
underflows (`chainHeight - INDEX_LIMIT` in uint64), so the pass enqueues nothing,
while the claimed `from = max(storeLatest+1, chainHeight - INDEX_LIMIT)` would give 1
and enqueue `[1, 50]`. -/
theorem makeRoutineJobs_bootstrap_claim_false :
    (makeRoutineJobs 0 (.ok 0) 50).1 ≠ claimJobs 0 50 := by decide

/-- C1 amended: a discovery pass that reads the store successfully on an empty queue
enqueues exactly the numbers `[from, chainHeight]` in ascending order, where `from`
is `chainHeight - INDEX_LIMIT` in wrapping uint64 arithmetic when the store is empty
(so nothing when `chainHeight < INDEX_LIMIT`) and `storeLatest + 1` otherwise; in
particular Scenario A enqueues `[400, 500]` and Scenario B enqueues `[451, 500]`. -/
theorem makeRoutineJobs_enqueued_range :
    (∀ repoLatest currentLatest : Nat,
      List.Pairwise (· < ·) (makeRoutineJobs 0 (.ok repoLatest) currentLatest).1 ∧
      (∀ n, n ∈ (makeRoutineJobs 0 (.ok repoLatest) currentLatest).1 ↔
        routineFrom repoLatest currentLatest ≤ n ∧ n ≤ currentLatest)) ∧
    (makeRoutineJobs 0 (.ok 0) 500).1 = rangeAsc 400 500 ∧
    (makeRoutineJobs 0 (.ok 450) 500).1 = rangeAsc 451 500 := by
  refine ⟨fun r c => ⟨?_, fun n => ?_⟩, by decide, by decide⟩
  · simp only [makeRoutineJobs, Nat.lt_irrefl, if_false, rangeAsc]
    exact List.pairwise_lt_range' _ _
  · simp only [makeRoutineJobs, Nat.lt_irrefl, if_false, rangeAsc]
    rw [List.mem_range'_1]
    omega

/-- C8 counterexample: with store latest 450 and chain height 500, a first call on an
empty queue enqueues `[451, 500]`; a second call while that work is still pending
(queue non-empty) enqueues nothing — not the same range. -/
theorem scheduleNextRange_twice_claim_false :
    (makeRoutineJobs 0 (.ok 450) 500).1 = rangeAsc 451 500 ∧
    (makeRoutineJobs 1 (.ok 450) 500).1 = ([] : List Nat) ∧
    rangeAsc 451 500 ≠ ([] : List Nat) := by decide

/-- C8 amended: a discovery pass that observes a non-empty Work Queue is a no-op —
it enqueues nothing and reports nothing; hence the second of two calls whose first
enqueued a still-pending nonempty range enqueues nothing new rather than repeating
the range. -/
theorem makeRoutineJobs_noop_on_nonempty_queue (queueLen : Nat)
    (res : Except String Nat) (currentLatest : Nat) (hq : 0 < queueLen) :
    makeRoutineJobs queueLen res currentLatest = ([], none) := by
  simp [makeRoutineJobs, hq]

/-- Witness for the C8 amendment at queue length 1. -/
theorem makeRoutineJobs_noop_on_nonempty_queue_witness :
    makeRoutineJobs 1 (.ok 450) 500 = ([], none) :=
  makeRoutineJobs_noop_on_nonempty_queue 1 (.ok 450) 500 (by decide)

/-- C4 counterexample: `addJob` fires one sender goroutine per enqueued number, so a
single discovery pass over `[451, 500]` with nothing consumed leaves 50 concurrent
senders — not the claimed single blocking send by the caller. -/
theorem addJob_concurrent_senders_unbounded :
    concurrentSenders (scheduleJobs (rangeAsc 451 500) { buffer := [], pending := [] }) = 50 ∧
    ¬ concurrentSenders (scheduleJobs (rangeAsc 451 500) { buffer := [], pending := [] }) ≤ 1 := by
  decide

/-- C4 amended: each enqueued number spawns its own sender goroutine — scheduling `js`
adds `js.length` concurrent senders and never touches the channel buffer itself — while
the channel buffer stays within its configured capacity under delivery steps. -/
theorem addJob_fire_and_forget_spec (js : List Nat) (q : JobQueue) :
    concurrentSenders (scheduleJobs js q) = concurrentSenders q + js.length ∧
    (scheduleJobs js q).buffer = q.buffer ∧
    (q.buffer.length ≤ JobsChannelCapacity →
      (deliverOne q).buffer.length ≤ JobsChannelCapacity) := by
  refine ⟨?_, ?_, ?_⟩
  · induction js generalizing q with
    | nil => simp [scheduleJobs, concurrentSenders]
    | cons n tl ih =>
      have step : scheduleJobs (n :: tl) q = scheduleJobs tl (addJob n q) := rfl
      rw [step, ih (addJob n q)]
      simp [addJob, concurrentSenders]
      omega
  · induction js generalizing q with
    | nil => rfl
    | cons n tl ih =>
      have step : scheduleJobs (n :: tl) q = scheduleJobs tl (addJob n q) := rfl
      rw [step, ih (addJob n q)]
      rfl
  · intro hcap
    unfold deliverOne
    cases hq : q.pending with
    | nil => exact hcap
    | cons n rest =>
      by_cases hroom : q.buffer.length < JobsChannelCapacity
      · simp only [if_pos hroom, List.length_append, List.length_cons, List.length_nil]
        omega
      · simpa [hroom] using hcap

/-- Witness for the C4 amendment: scheduling two numbers adds two senders, and a
delivery step from a full pending list keeps the buffer within capacity. -/
theorem addJob_fire_and_forget_spec_witness :
    concurrentSenders (scheduleJobs [400, 401] { buffer := [], pending := [] }) =
      concurrentSenders { buffer := ([] : List Nat), pending := ([] : List Nat) } + 2 ∧
    (deliverOne { buffer := [], pending := [400, 401] }).buffer.length ≤
      JobsChannelCapacity :=
  ⟨(addJob_fire_and_forget_spec [400, 401] { buffer := [], pending := [] }).1,
   (addJob_fire_and_forget_spec [] { buffer := [], pending := [400, 401] }).2.2 (by decide)⟩

/-- C5: a store miss makes `GetTransaction` fetch transaction and receipt live,
persist the assembled record via `CreateTransaction`, and return it; a second call
with the same hash then hits the store and returns the persisted copy with no further
live chain fetch. -/
theorem GetTransaction_fetch_then_cache (client : ChainClient)
    (createTx : Transaction → Except String Unit) (store : List Transaction)
    (hash : String) (txd : ChainTxData) (rcpt : ReceiptData)
    (hmiss : FindTransaction store hash = none)
    (htx : client.getTransactionByHash hash = .ok txd)
    (hrc : client.getTransactionReceipt hash = .ok rcpt)
    (hcr : createTx (assembleTransaction hash txd rcpt) = .ok ()) :
    GetTransaction client createTx store hash =
      { result := .ok (assembleTransaction hash txd rcpt)
        store := store ++ [assembleTransaction hash txd rcpt]
        liveFetch := true } ∧
    GetTransaction client createTx (store ++ [assembleTransaction hash txd rcpt]) hash =
      { result := .ok (assembleTransaction hash txd rcpt)
        store := store ++ [assembleTransaction hash txd rcpt]
        liveFetch := false } := by
  have hfind : FindTransaction (store ++ [assembleTransaction hash txd rcpt]) hash =
      some (assembleTransaction hash txd rcpt) := by
    unfold FindTransaction at hmiss ⊢
    rw [List.find?_append, hmiss]
    simp [assembleTransaction]
  exact ⟨by simp [GetTransaction, hmiss, htx, hrc, hcr], by simp [GetTransaction, hfind]⟩

/-- Witness for C5: hash "0xabc" misses an empty store, is fetched live once, and the
second call is served from the store without a live fetch. -/
theorem GetTransaction_fetch_then_cache_witness :
    GetTransaction
        { getTransactionByHash := fun _ =>
            .ok { fromAddr := "alice", toAddr := "bob", nonce := 1, data := "", value := 5 }
          getTransactionReceipt := fun _ => .ok { logs := [], blockHash := "bh" } }
        (fun _ => .ok ()) [] "0xabc" =
      { result := .ok (assembleTransaction "0xabc"
          { fromAddr := "alice", toAddr := "bob", nonce := 1, data := "", value := 5 }
          { logs := [], blockHash := "bh" })
        store := [] ++ [assembleTransaction "0xabc"
          { fromAddr := "alice", toAddr := "bob", nonce := 1, data := "", value := 5 }
          { logs := [], blockHash := "bh" }]
        liveFetch := true } ∧
    GetTransaction
        { getTransactionByHash := fun _ =>
            .ok { fromAddr := "alice", toAddr := "bob", nonce := 1, data := "", value := 5 }
          getTransactionReceipt := fun _ => .ok { logs := [], blockHash := "bh" } }
        (fun _ => .ok ())
        ([] ++ [assembleTransaction "0xabc"
          { fromAddr := "alice", toAddr := "bob", nonce := 1, data := "", value := 5 }
          { logs := [], blockHash := "bh" }]) "0xabc" =
      { result := .ok (assembleTransaction "0xabc"
          { fromAddr := "alice", toAddr := "bob", nonce := 1, data := "", value := 5 }
          { logs := [], blockHash := "bh" })
        store := [] ++ [assembleTransaction "0xabc"
          { fromAddr := "alice", toAddr := "bob", nonce := 1, data := "", value := 5 }
          { logs := [], blockHash := "bh" }]
        liveFetch := false } :=
  GetTransaction_fetch_then_cache
    { getTransactionByHash := fun _ =>
        .ok { fromAddr := "alice", toAddr := "bob", nonce := 1, data := "", value := 5 }
      getTransactionReceipt := fun _ => .ok { logs := [], blockHash := "bh" } }
    (fun _ => .ok ()) [] "0xabc"
    { fromAddr := "alice", toAddr := "bob", nonce := 1, data := "", value := 5 }
    { logs := [], blockHash := "bh" } rfl rfl rfl rfl

/-- C10: an absent `limit` query parameter defaults to 1; a non-numeric value or one
outside `[1, 10]` answers 400 Bad Request without consulting `GetNewBlocks`; an
in-range value is the one passed to `GetNewBlocks`. -/
theorem blocksHandler_limit_validation (g : Int → Except String (List Block)) :
    (blocksHandler none g).2 = some 1 ∧
    (∀ s, atoi? s = none →
      blocksHandler (some s) g = (BlocksResponse.badRequest, none)) ∧
    (∀ s v, atoi? s = some v → (v < 1 ∨ 10 < v) →
      blocksHandler (some s) g = (BlocksResponse.badRequest, none)) ∧
    (∀ s v, atoi? s = some v → 1 ≤ v → v ≤ 10 →
      (blocksHandler (some s) g).2 = some v) := by
  refine ⟨?_, ?_, ?_, ?_⟩
  · have h1 : atoi? "1" = some 1 := rfl
    cases hg : g 1 <;> simp [blocksHandler, h1, hg]
  · intro s hs
    simp [blocksHandler, hs]
  · intro s v hs hv
    simp only [blocksHandler, Option.getD_some, hs]
    rw [if_pos hv]
  · intro s v hs h1 h10
    have hrange : ¬ (v < 1 ∨ 10 < v) := by omega
    simp only [blocksHandler, Option.getD_some, hs]
    rw [if_neg hrange]
    cases hg : g v <;> simp [hg]

/-- Witness for C10: "abc" and "99" are rejected before the store is consulted,
while "5" reaches `GetNewBlocks` with limit 5. -/
theorem blocksHandler_limit_validation_witness :
    blocksHandler (some "abc") (fun _ => .ok []) = (BlocksResponse.badRequest, none) ∧
    blocksHandler (some "99") (fun _ => .ok []) = (BlocksResponse.badRequest, none) ∧
    (blocksHandler (some "5") (fun _ => .ok [])).2 = some 5 :=
  ⟨(blocksHandler_limit_validation (fun _ => .ok [])).2.1 "abc" (by decide),
   (blocksHandler_limit_validation (fun _ => .ok [])).2.2.1 "99" 99 (by decide) (by decide),
   (blocksHandler_limit_validation (fun _ => .ok [])).2.2.2 "5" 5 (by decide) (by decide)
     (by decide)⟩

end Portto
